import Mathlib

/-!
Verification development for the todo-gpt repository.

The TypeScript sources are shallowly embedded as Lean definitions:

* JavaScript strings are Lean `String`s; the JavaScript string methods used
  by the sources (`startsWith`, `toLowerCase`, `includes`, `trim`,
  `substring(0, 8)`) are embedded as executable functions over the
  character list `String.data`.
* In-place mutation of arrays and objects is embedded as explicit state
  passing: each service method returns the updated collection.
* `uuidv4()` and `new Date()` are nondeterministic in the source; they are
  embedded by passing the freshly allocated id and the current timestamp
  (an opaque string) as explicit arguments drawn from the ambient state.
* `Date` values are kept as the opaque source strings that produced them;
  no claim in scope depends on calendar arithmetic.
* Console output is embedded as a returned list of message strings; the
  emoji prefixes of the source messages are omitted, the message text is
  kept verbatim.
-/

namespace TodoGpt

/-- JavaScript `s.startsWith(p)`: `p` is a prefix of `s`. -/
def strStartsWith (s p : String) : Bool :=
  p.data.isPrefixOf s.data

/-- JavaScript `s.toLowerCase()` restricted to the ASCII range, which is the
only range exercised by the embedded values (uuid hex characters and the
confirmation words). -/
def strToLower (s : String) : String :=
  ⟨s.data.map Char.toLower⟩

/-- JavaScript `s.includes(sub)`: `sub` occurs contiguously in `s` (the empty
string occurs in every string). -/
def strIncludes (s sub : String) : Bool :=
  (List.range (s.data.length + 1)).any (fun i => sub.data.isPrefixOf (s.data.drop i))

/-- JavaScript `s.trim()`: strip whitespace from both ends. -/
def strTrim (s : String) : String :=
  ⟨((s.data.dropWhile Char.isWhitespace).reverse.dropWhile Char.isWhitespace).reverse⟩

/-- JavaScript `s.substring(0, n)`. -/
def strTake (s : String) (n : Nat) : String :=
  ⟨s.data.take n⟩

/-- JavaScript truthiness of an optional string: `undefined` and the empty
string are falsy. -/
def optStrTruthy : Option String → Bool
  | some s => s != ""
  | none => false

/-- `src/types.ts` interface `TodoItem`.  `dueDate`, `createdAt` and
`updatedAt` are `Date` values in the source, embedded as opaque strings; the
recursive `subtasks?: TodoItem[]` field is embedded by the subtask ids, since
every operation in scope only ever initializes it to `[]`. -/
structure TodoItem where
  id : String
  title : String
  description : Option String := none
  dueDate : Option String := none
  priority : Option String := none
  completed : Bool := false
  categories : Option (List String) := none
  tags : Option (List String) := none
  subtasks : List String := []
  dependencies : List String := []
  createdAt : String := ""
  updatedAt : String := ""
deriving DecidableEq

/-- `src/types.ts` interface `TodoList`. -/
structure TodoList where
  id : String
  name : String
  todos : List TodoItem
  createdAt : String := ""
  updatedAt : String := ""
deriving DecidableEq

/-- Options bag accepted by `TodoService.createTodo`. -/
structure CreateOptions where
  description : Option String := none
  dueDate : Option String := none
  priority : Option String := none
  categories : Option (List String) := none
  tags : Option (List String) := none
deriving DecidableEq

/-- `TodoService.createTodo`.  The `uuidv4()` call and the two `new Date()`
calls are embedded by the explicit `freshId` and `now` arguments. -/
def createTodo (freshId now : String) (title : String)
    (options : CreateOptions := {}) : TodoItem :=
  { id := freshId
    title := title
    description := options.description
    dueDate := options.dueDate
    priority := options.priority
    completed := false
    categories := options.categories
    tags := options.tags
    subtasks := []
    dependencies := []
    createdAt := now
    updatedAt := now }

/-- `TodoService.addTodoToList`: create a todo and push it at the end of the
array.  Returns the updated array and the new todo. -/
def addTodoToList (todos : List TodoItem) (freshId now title : String)
    (options : CreateOptions := {}) : List TodoItem × TodoItem :=
  let newTodo := createTodo freshId now title options
  (todos ++ [newTodo], newTodo)

/-- `TodoService.findTodoById`: first array element with the exact id. -/
def findTodoById (todos : List TodoItem) (todoId : String) : Option TodoItem :=
  todos.find? (fun todo => todo.id == todoId)

/-- `TodoService.findTodoByShortId`: reject falsy or short prefixes, then
return the first todo whose id starts with the lowercased prefix. -/
def findTodoByShortId (todos : List TodoItem) (shortId : String) : Option TodoItem :=
  if shortId = "" ∨ shortId.length < 8 then none
  else todos.find? (fun todo => strStartsWith todo.id (strToLower shortId))

/-- The reference argument of `TodoService.resolveTodoReference`. -/
structure TodoReference where
  shortId : Option String := none
  todoNumber : Option Int := none
  confirmTitle : Option String := none
deriving DecidableEq

/-- The `{ todo, error? }` result of `TodoService.resolveTodoReference`. -/
structure ResolveResult where
  todo : Option TodoItem
  error : Option String := none
deriving DecidableEq

/-- Placeholder element for the (unreachable) out-of-bounds array read in the
positional branch of the resolver; the branch is guarded by the bounds check. -/
def defaultTodo : TodoItem :=
  { id := "", title := "" }

/-- The positional fallback branch of `TodoService.resolveTodoReference`
(entered when `reference.todoNumber !== undefined`, an explicit presence
test) together with its final `else` (no identifier at all).  `Sum.inl`
carries the error message of an early return of the source. -/
def resolveFallback (todos : List TodoItem) (reference : TodoReference) :
    Sum String TodoItem :=
  match reference.todoNumber with
  | some todoNumber =>
    let todoIndex : Int := todoNumber - 1
    if todoIndex < 0 ∨ (todos.length : Int) ≤ todoIndex then
      Sum.inl ("Invalid todo number: " ++ toString todoNumber)
    else
      Sum.inr (todos.getD todoIndex.toNat defaultTodo)
  | none => Sum.inl "No todo identifier provided (shortId or todoNumber required)"

/-- The candidate-selection phase of `TodoService.resolveTodoReference`:
`if (reference.shortId)` is a JavaScript truthiness test, so an empty-string
shortId falls through to the positional branch. -/
def resolveSelect (todos : List TodoItem) (reference : TodoReference) :
    Sum String TodoItem :=
  match reference.shortId with
  | some s =>
    if s = "" then resolveFallback todos reference
    else
      match findTodoByShortId todos s with
      | some todo => Sum.inr todo
      | none => Sum.inl ("No todo found with shortId: " ++ s)
  | none => resolveFallback todos reference

/-- The trailing `confirmTitle` safety check of
`TodoService.resolveTodoReference`, applied to a selected candidate:
`if (reference.confirmTitle && todo)` is again a truthiness test. -/
def resolveConfirm (reference : TodoReference) (todo : TodoItem) : ResolveResult :=
  match reference.confirmTitle with
  | some confirmTitle =>
    if confirmTitle ≠ "" ∧
        strIncludes (strToLower todo.title) (strToLower confirmTitle) = false then
      { todo := none
        error := some ("Title mismatch: expected \"" ++ confirmTitle ++
          "\", found \"" ++ todo.title ++ "\"") }
    else { todo := some todo, error := none }
  | none => { todo := some todo, error := none }

/-- `TodoService.resolveTodoReference`: candidate selection (shortId first,
then positional fallback, else the missing-identifier error), followed by
the `confirmTitle` check. -/
def resolveTodoReference (todos : List TodoItem) (reference : TodoReference) :
    ResolveResult :=
  match resolveSelect todos reference with
  | Sum.inl e => { todo := none, error := some e }
  | Sum.inr todo => resolveConfirm reference todo

/-- Common shape of `completeTodo`, `uncompleteTodo` and `updateTodo`: the
source finds the first array element with the given id and mutates that object
in place; the embedding replaces the first matching element. -/
def mutateFirstById (todos : List TodoItem) (todoId : String)
    (f : TodoItem → TodoItem) : List TodoItem × Bool :=
  match todos with
  | [] => ([], false)
  | t :: ts =>
    if t.id == todoId then (f t :: ts, true)
    else
      let r := mutateFirstById ts todoId f
      (t :: r.1, r.2)

/-- `TodoService.completeTodo`: set `completed`, refresh `updatedAt`. -/
def completeTodo (todos : List TodoItem) (todoId now : String) :
    List TodoItem × Bool :=
  mutateFirstById todos todoId
    (fun todo => { todo with completed := true, updatedAt := now })

/-- `TodoService.uncompleteTodo`: clear `completed`, refresh `updatedAt`. -/
def uncompleteTodo (todos : List TodoItem) (todoId now : String) :
    List TodoItem × Bool :=
  mutateFirstById todos todoId
    (fun todo => { todo with completed := false, updatedAt := now })

/-- A `Partial<TodoItem>` update payload: a present field is copied onto the
target object by `Object.assign`, an absent field leaves it alone. -/
structure TodoUpdate where
  id : Option String := none
  title : Option String := none
  description : Option (Option String) := none
  dueDate : Option (Option String) := none
  priority : Option (Option String) := none
  completed : Option Bool := none
  categories : Option (Option (List String)) := none
  tags : Option (Option (List String)) := none
deriving DecidableEq

/-- `Object.assign(todo, updates, { updatedAt: new Date() })`: every property
present in `updates` overwrites the corresponding field of `todo` (including
`id`, which `Partial<TodoItem>` admits), then `updatedAt` is overwritten. -/
def objectAssign (todo : TodoItem) (updates : TodoUpdate) (now : String) : TodoItem :=
  { id := updates.id.getD todo.id
    title := updates.title.getD todo.title
    description := updates.description.getD todo.description
    dueDate := updates.dueDate.getD todo.dueDate
    priority := updates.priority.getD todo.priority
    completed := updates.completed.getD todo.completed
    categories := updates.categories.getD todo.categories
    tags := updates.tags.getD todo.tags
    subtasks := todo.subtasks
    dependencies := todo.dependencies
    createdAt := todo.createdAt
    updatedAt := now }

/-- `TodoService.updateTodo`. -/
def updateTodo (todos : List TodoItem) (todoId : String) (updates : TodoUpdate)
    (now : String) : List TodoItem × Bool :=
  mutateFirstById todos todoId (fun todo => objectAssign todo updates now)

/-- `TodoService.deleteTodo`: `findIndex` then `splice(index, 1)` when the
index is non-negative. -/
def deleteTodo (todos : List TodoItem) (todoId : String) : List TodoItem × Bool :=
  match todos.findIdx? (fun todo => todo.id == todoId) with
  | some index => (todos.eraseIdx index, true)
  | none => (todos, false)

/-- The 8-character short id of a todo, `todo.id.substring(0, 8)` in the
source test drivers and display layer. -/
def shortIdOf (todo : TodoItem) : String :=
  strTake todo.id 8

/-!
`ListService` (services/ListService.ts) and the interactive handlers of
`src/index.ts`.  The database calls (`db.createTodo`, `db.updateTodo`, ...)
are fire-and-forget persistence writes and are outside the in-memory state
embedded here.  `uuidv4()` results are drawn from an ambient `idSupply`
stream and `new Date()` from the ambient `now` field of the state.
-/

/-- The process-wide mutable state of `src/index.ts`: the `ListService`
fields `lists` and `currentListId`, plus the ambient sources of fresh ids
and timestamps. -/
structure AppState where
  lists : List TodoList
  currentListId : Option String := none
  idSupply : List String := []
  now : String := ""
deriving DecidableEq

/-- Draw the next `uuidv4()` result from the ambient supply. -/
def allocId (st : AppState) : String × AppState :=
  (st.idSupply.headD "", { st with idSupply := st.idSupply.tail })

/-- `ListService.getCurrentList`: `if (!this.currentListId) return null` is a
truthiness test, then the first list with that id is returned. -/
def getCurrentList (st : AppState) : Option TodoList :=
  if optStrTruthy st.currentListId = false then none
  else st.lists.find? (fun l => l.id == st.currentListId.getD "")

/-- `ListService.findListByName` (case-insensitive name equality). -/
def findListByName (st : AppState) (name : String) : Option TodoList :=
  st.lists.find? (fun l => strToLower l.name == strToLower name)

/-- `ListService.setCurrentListByName`. -/
def setCurrentListByName (st : AppState) (name : String) : AppState × Bool :=
  match st.lists.find? (fun l => strToLower l.name == strToLower name) with
  | some l => ({ st with currentListId := some l.id }, true)
  | none => (st, false)

/-- `ListService.createList`: allocate an id, push the new list, and make it
current when `currentListId === null` (an explicit null test, not
truthiness). -/
def createList (st : AppState) (name : String) : AppState × TodoList :=
  let a := allocId st
  let newList : TodoList :=
    { id := a.1, name := name, todos := [], createdAt := st.now, updatedAt := st.now }
  let currentListId :=
    match a.2.currentListId with
    | none => some newList.id
    | some c => some c
  ({ a.2 with lists := a.2.lists ++ [newList], currentListId := currentListId }, newList)

/-- Replace the first list with the given id; this embeds the source pattern
of mutating the object returned by `find`. -/
def updateFirstListById (lists : List TodoList) (listId : String)
    (f : TodoList → TodoList) : List TodoList :=
  match lists with
  | [] => []
  | l :: ls =>
    if l.id == listId then f l :: ls
    else l :: updateFirstListById ls listId f

/-- `ListService.addTodoToCurrentList`: push onto the current list.  The
source throws when there is no current list; every caller in scope guards
that case first, so the embedding leaves the state unchanged there. -/
def addTodoToCurrentList (st : AppState) (todo : TodoItem) : AppState :=
  match getCurrentList st with
  | none => st
  | some cur =>
    { st with lists := (updateFirstListById st.lists cur.id
        (fun l => { l with todos := l.todos ++ [todo] })) }

/-- `ListService.deleteTodoFromCurrentList`: `findIndex` then `splice`, the
same first-match removal as `TodoService.deleteTodo`. -/
def deleteTodoFromCurrentList (st : AppState) (todoId : String) : AppState :=
  match getCurrentList st with
  | none => st
  | some cur =>
    { st with lists := (updateFirstListById st.lists cur.id
        (fun l => { l with todos := (deleteTodo l.todos todoId).1 })) }

/-- One entry of the `todos` array of an `add_multiple_todos` payload. -/
structure ParsedTodoData where
  title : Option String := none
  description : Option String := none
  priority : Option String := none
  dueDate : Option String := none
  categories : Option (List String) := none
deriving DecidableEq

/-- The untyped `parsed` intent object dispatched by `handleParsedCommand`,
restricted to the properties the handlers read.  A nested
`command_sequence` payload suspends on a fresh confirmation prompt in the
source and is outside this state model, so `ParsedCommand` carries no nested
command array (see `handleParsedCommand`). -/
structure ParsedCommand where
  action : String := ""
  title : Option String := none
  name : Option String := none
  message : Option String := none
  description : Option String := none
  priority : Option String := none
  dueDate : Option String := none
  categories : Option (List String) := none
  todoNumber : Option Int := none
  index : Option Int := none
  todos : Option (List ParsedTodoData) := none
deriving DecidableEq

/-- JavaScript `a || b` on optional numbers: `undefined` and `0` are falsy. -/
def jsOrInt (a b : Option Int) : Option Int :=
  match a with
  | some x => if x == 0 then b else some x
  | none => b

/-- JavaScript `parseInt`: the decimal value of the leading digit run, `NaN`
(embedded as `none`) when there is none. -/
def jsParseInt (s : String) : Option Nat :=
  let ds := s.data.takeWhile Char.isDigit
  if ds.isEmpty then none else
    some (ds.foldl (fun n c => n * 10 + (c.toNat - 48)) 0)

/-- The `dueDate` validation of `handleAddTodo`: split on dashes, `parseInt`
the first three parts, and require the resulting `Date` not to be `NaN`
(which happens exactly when some part is `NaN`). -/
def addDueDateValid (s : String) : Bool :=
  match (s.splitOn "-").map jsParseInt with
  | y :: m :: d :: _ => y.isSome && m.isSome && d.isSome
  | _ => false

def isValidPriority (p : String) : Bool :=
  p == "high" || p == "medium" || p == "low"

def noCurrentListMsg : String :=
  "No current list selected. Use /create to create a list first."

def invalidTodoNumberMsg : String :=
  "Invalid todo number. Use /list to see available todos."

/-- The options object built by `handleAddTodo` (and per item by
`handleAddMultipleTodos`) from a parsed payload. -/
def buildAddOptions (description : Option String)
    (priority : Option String) (dueDate : Option String)
    (categories : Option (List String)) : CreateOptions :=
  { description := if optStrTruthy description then description else none
    dueDate :=
      match dueDate with
      | some s => if s != "" && addDueDateValid s then some s else none
      | none => none
    priority :=
      match priority with
      | some p => if isValidPriority p then some p else none
      | none => none
    categories := categories
    tags := none }

/-- `handleAddTodo` of `src/index.ts`: guard the current list, require a
truthy title, build the options and push the created todo. -/
def handleAddTodo (st : AppState) (parsed : ParsedCommand) : AppState × List String :=
  match getCurrentList st with
  | none => (st, [noCurrentListMsg])
  | some currentList =>
    if optStrTruthy parsed.title = false then
      (st, ["Missing todo title in your request."])
    else
      let options := buildAddOptions parsed.description
        parsed.priority parsed.dueDate parsed.categories
      let a := allocId st
      let newTodo := createTodo a.1 st.now (parsed.title.getD "") options
      let st2 := addTodoToCurrentList a.2 newTodo
      (st2, ["Added \"" ++ newTodo.title ++ "\" to " ++ currentList.name ++ " list"])

/-- `handleAddMultipleTodos`: add every entry with a truthy title, count
successes and failures. -/
def handleAddMultipleTodos (st : AppState) (parsed : ParsedCommand) :
    AppState × List String :=
  match getCurrentList st with
  | none => (st, [noCurrentListMsg])
  | some _ =>
    match parsed.todos with
    | none => (st, ["No todos found in your request."])
    | some todoDatas =>
      if todoDatas.isEmpty then (st, ["No todos found in your request."])
      else
        let step := fun (acc : AppState × Nat × Nat) (todoData : ParsedTodoData) =>
          if optStrTruthy todoData.title = false then
            (acc.1, acc.2.1, acc.2.2 + 1)
          else
            let options := buildAddOptions todoData.description
              todoData.priority todoData.dueDate todoData.categories
            let a := allocId acc.1
            let newTodo := createTodo a.1 acc.1.now (todoData.title.getD "") options
            (addTodoToCurrentList a.2 newTodo, acc.2.1 + 1, acc.2.2)
        let r := todoDatas.foldl step (st, 0, 0)
        (r.1, ["Added " ++ toString r.2.1 ++ " todos", "Failed to add " ++ toString r.2.2 ++ " todos"])

/-- `handleCompleteTodo`: positional lookup via `(todoNumber || index) - 1`
with bounds validation, then `TodoService.completeTodo` on the current list. -/
def handleCompleteTodo (st : AppState) (parsed : ParsedCommand) :
    AppState × List String :=
  match getCurrentList st with
  | none => (st, [noCurrentListMsg])
  | some currentList =>
    match jsOrInt parsed.todoNumber parsed.index with
    | none => (st, [invalidTodoNumberMsg])
    | some n =>
      let todoIndex : Int := n - 1
      if todoIndex < 0 ∨ (currentList.todos.length : Int) ≤ todoIndex then
        (st, [invalidTodoNumberMsg])
      else
        let todo := currentList.todos.getD todoIndex.toNat defaultTodo
        let newTodos := (completeTodo currentList.todos todo.id st.now).1
        ({ st with lists := (updateFirstListById st.lists currentList.id
            (fun l => { l with todos := newTodos })) },
         ["Completed \"" ++ todo.title ++ "\""])

/-- `handleEditTodo`: positional lookup, per-field validation with early
returns, then `TodoService.updateTodo`.  The host `new Date(string)` parser
behind the format check is embedded by the dash-split numeric test, the only
format the handler documents. -/
def handleEditTodo (st : AppState) (parsed : ParsedCommand) :
    AppState × List String :=
  match getCurrentList st with
  | none => (st, [noCurrentListMsg])
  | some currentList =>
    match jsOrInt parsed.todoNumber parsed.index with
    | none => (st, [invalidTodoNumberMsg])
    | some n =>
      let todoIndex : Int := n - 1
      if todoIndex < 0 ∨ (currentList.todos.length : Int) ≤ todoIndex then
        (st, [invalidTodoNumberMsg])
      else
        let todo := currentList.todos.getD todoIndex.toNat defaultTodo
        if optStrTruthy parsed.priority = true ∧
            isValidPriority (parsed.priority.getD "") = false then
          (st, ["Priority must be one of: high, medium, low"])
        else if optStrTruthy parsed.dueDate = true ∧
            addDueDateValid (parsed.dueDate.getD "") = false then
          (st, ["Due date must be in YYYY-MM-DD format"])
        else
          let updates : TodoUpdate :=
            { title := if optStrTruthy parsed.title then parsed.title else none
              priority := if optStrTruthy parsed.priority then some parsed.priority else none
              dueDate := if optStrTruthy parsed.dueDate then some parsed.dueDate else none
              categories :=
                match parsed.categories with
                | some cs => some (some cs)
                | none => none }
          let hasUpdates := optStrTruthy parsed.title || optStrTruthy parsed.priority ||
            optStrTruthy parsed.dueDate || parsed.categories.isSome
          if hasUpdates = false then
            (st, ["No updates specified in the edit request."])
          else
            let newTodos := (updateTodo currentList.todos todo.id updates st.now).1
            ({ st with lists := (updateFirstListById st.lists currentList.id
                (fun l => { l with todos := newTodos })) },
             ["Updated \"" ++ (objectAssign todo updates st.now).title ++ "\""])

/-- `handleDeleteTodo`: positional lookup with bounds validation, then
`ListService.deleteTodoFromCurrentList` by the resolved id. -/
def handleDeleteTodo (st : AppState) (parsed : ParsedCommand) :
    AppState × List String :=
  match getCurrentList st with
  | none => (st, [noCurrentListMsg])
  | some currentList =>
    match jsOrInt parsed.todoNumber parsed.index with
    | none => (st, [invalidTodoNumberMsg])
    | some n =>
      let todoIndex : Int := n - 1
      if todoIndex < 0 ∨ (currentList.todos.length : Int) ≤ todoIndex then
        (st, [invalidTodoNumberMsg])
      else
        let todo := currentList.todos.getD todoIndex.toNat defaultTodo
        (deleteTodoFromCurrentList st todo.id, ["Deleted \"" ++ todo.title ++ "\""])

/-- `handleCreateList`: require a truthy name, reject duplicates, create. -/
def handleCreateList (st : AppState) (parsed : ParsedCommand) :
    AppState × List String :=
  if optStrTruthy parsed.name = false then
    (st, ["Missing list name in your request."])
  else if (findListByName st (parsed.name.getD "")).isSome then
    (st, ["List " ++ parsed.name.getD "" ++ " already exists!"])
  else
    let r := createList st (parsed.name.getD "")
    (r.1, ["Created list " ++ r.2.name])

/-- `handleSwitchList`. -/
def handleSwitchList (st : AppState) (parsed : ParsedCommand) :
    AppState × List String :=
  if optStrTruthy parsed.name = false then
    (st, ["Missing list name in your request."])
  else
    let r := setCurrentListByName st (parsed.name.getD "")
    if r.2 then (r.1, ["Switched to " ++ parsed.name.getD "" ++ " list"])
    else (st, ["List " ++ parsed.name.getD "" ++ " not found. Use /lists to see available lists."])

/-- `handleParsedCommand`: the action dispatch of `src/index.ts`.
`list_todos` and `conversational` only print and leave the state unchanged;
a nested `command_sequence` carries no command array in this model and so
takes the invalid-format path of `handleCommandSequence`, matching the
source for a payload without a commands array. -/
def handleParsedCommand (st : AppState) (parsed : ParsedCommand) :
    AppState × List String :=
  match parsed.action with
  | "add_todo" => handleAddTodo st parsed
  | "add_multiple_todos" => handleAddMultipleTodos st parsed
  | "list_todos" => (st, [])
  | "complete_todo" => handleCompleteTodo st parsed
  | "edit_todo" => handleEditTodo st parsed
  | "create_list" => handleCreateList st parsed
  | "switch_list" => handleSwitchList st parsed
  | "delete_todo" => handleDeleteTodo st parsed
  | "command_sequence" => (st, ["Invalid command sequence format."])
  | "conversational" => (st, [parsed.message.getD ""])
  | _ => (st, ["I could not understand your request."])

/-- The confirmed execution loop of `handleCommandSequence`: strictly
sequential, each step dispatched through `handleParsedCommand`.  The
`try/catch` abort of the source only fires on a thrown exception; none of
the embedded in-memory handlers throw (each source handler catches or
reports its own failures), so every step is attempted. -/
def executeSequenceSteps (st : AppState) (cmds : List ParsedCommand) :
    AppState × List String :=
  match cmds with
  | [] => (st, [])
  | c :: rest =>
    let r := handleParsedCommand st c
    let r2 := executeSequenceSteps r.1 rest
    (r2.1, r.2 ++ r2.2)

/-- A `command_sequence` payload. -/
structure ParsedSequence where
  description : Option String := none
  commands : Option (List ParsedCommand) := none
deriving DecidableEq

/-- `handleCommandSequence` of `src/index.ts`, from the arrival of the
payload to the completion of the confirmation handler: an absent commands
array is rejected; the answer is trimmed and lowercased; an empty answer is
ignored; `y`/`yes` runs the sequence; anything else cancels it. -/
def handleCommandSequence (st : AppState) (parsed : ParsedSequence)
    (answer : String) : AppState × List String :=
  match parsed.commands with
  | none => (st, ["Invalid command sequence format."])
  | some commands =>
    let trimmedAnswer := strToLower (strTrim answer)
    if trimmedAnswer = "" then (st, [])
    else if trimmedAnswer = "y" ∨ trimmedAnswer = "yes" then
      let r := executeSequenceSteps st commands
      (r.1, "Executing command sequence..." :: r.2 ++
        ["Command sequence completed successfully!"])
    else (st, ["Command sequence cancelled."])

/-- `const maxConversationHistory = 10` of `src/index.ts`. -/
def maxConversationHistory : Nat := 10

/-- The trailing `while (conversationHistory.length > maxConversationHistory)
conversationHistory.shift()` loop of `handleChatMessage`. -/
def trimHistory : List String → List String
  | [] => []
  | x :: xs =>
    if (x :: xs).length ≤ maxConversationHistory then x :: xs
    else trimHistory xs

/-- The conversation-history effect of one successful `handleChatMessage`
call: push the user turn, push the assistant turn (either the conversational
reply or the `Executed <action> command` note), then run the trim loop. -/
def recordChatTurn (history : List String) (userMessage assistantText : String) :
    List String :=
  trimHistory (history ++ ["User: " ++ userMessage, "Assistant: " ++ assistantText])

/-- One in-memory list operation of the identity-stability scenario:
`addTodoToList` (which creates and pushes at the end) or `deleteTodo`
(which splices out the first todo with the given id). -/
inductive ListOp where
  | add : String → String → String → CreateOptions → ListOp
  | del : String → ListOp
deriving DecidableEq

def applyOp (todos : List TodoItem) : ListOp → List TodoItem
  | ListOp.add freshId now title options => (addTodoToList todos freshId now title options).1
  | ListOp.del todoId => (deleteTodo todos todoId).1

def applyOps (todos : List TodoItem) (ops : List ListOp) : List TodoItem :=
  ops.foldl applyOp todos

/-!
Concrete sample values used by witnesses and counterexamples.
-/

def sampleTodoA : TodoItem :=
  { id := "aaaaaaaa-1111-2222-3333-444444444444", title := "Buy milk"
    createdAt := "t0", updatedAt := "t0" }

def sampleTodoB : TodoItem :=
  { id := "aaaaaaaa-9999-8888-7777-666666666666", title := "Walk dog"
    createdAt := "t0", updatedAt := "t0" }

def sampleTodoC : TodoItem :=
  { id := "bbbbbbbb-1111-2222-3333-444444444444", title := "Finish report"
    createdAt := "t0", updatedAt := "t0" }

def sampleState : AppState :=
  { lists := [{ id := "list-1", name := "Personal", todos := [] }]
    currentListId := some "list-1"
    idSupply := ["id-1", "id-2", "id-3", "id-4"]
    now := "2026-10-12" }

def sampleCmdAddMilk : ParsedCommand :=
  { action := "add_todo", title := some "Buy milk" }

/-- An `add_todo` step with no title: it fails the handler validation. -/
def sampleCmdNoTitle : ParsedCommand :=
  { action := "add_todo" }

def sampleCmdAddDog : ParsedCommand :=
  { action := "add_todo", title := some "Walk dog" }

/-- A three-step batch whose second step fails validation. -/
def sampleSeqC2 : ParsedSequence :=
  { description := some "three-step batch"
    commands := some [sampleCmdAddMilk, sampleCmdNoTitle, sampleCmdAddDog] }

/-!
Supporting lemmas.
-/

theorem deleteTodo_cons (x : TodoItem) (xs : List TodoItem) (j : String) :
    deleteTodo (x :: xs) j =
      if x.id == j then (xs, true)
      else ((x :: (deleteTodo xs j).1), (deleteTodo xs j).2) := by
  unfold deleteTodo
  by_cases h : x.id == j
  · simp [List.findIdx?_cons, h]
  · simp only [List.findIdx?_cons, h, Bool.false_eq_true, if_neg, if_false]
    rw [List.findIdx?_succ]
    cases hfind : xs.findIdx? (fun todo => todo.id == j) with
    | none => simp [hfind]
    | some k => simp [hfind]

theorem find?_append_of_some {α : Type} {p : α → Bool} {l : List α} {t : α}
    (h : l.find? p = some t) (l2 : List α) : (l ++ l2).find? p = some t := by
  rw [List.find?_append, h]
  rfl

theorem find?_delete_of_some {p : TodoItem → Bool} {l : List TodoItem}
    {t : TodoItem} {j : String} (h : l.find? p = some t) (hne : t.id ≠ j) :
    ((deleteTodo l j).1).find? p = some t := by
  induction l with
  | nil => simp at h
  | cons x xs ih =>
    rw [deleteTodo_cons]
    by_cases hx : x.id == j
    · rw [if_pos hx]
      cases hpx : p x with
      | true =>
        rw [List.find?_cons_of_pos _ hpx] at h
        have hxt : x = t := by injection h
        exact absurd (hxt ▸ (beq_iff_eq.mp hx)) hne
      | false =>
        rw [List.find?_cons_of_neg _ (by simp [hpx])] at h
        exact h
    · rw [if_neg hx]
      cases hpx : p x with
      | true =>
        rw [List.find?_cons_of_pos _ hpx] at h ⊢
        exact h
      | false =>
        rw [List.find?_cons_of_neg _ (by simp [hpx])] at h ⊢
        exact ih h

theorem mutateFirstById_not_found (todos : List TodoItem) (todoId : String)
    (f : TodoItem → TodoItem) (h : ∀ u ∈ todos, u.id ≠ todoId) :
    mutateFirstById todos todoId f = (todos, false) := by
  induction todos with
  | nil => rfl
  | cons t ts ih =>
    have ht : (t.id == todoId) = false :=
      beq_eq_false_iff_ne.mpr (h t (List.mem_cons_self t ts))
    unfold mutateFirstById
    rw [ht]
    simp [ih (fun u hu => h u (List.mem_cons_of_mem t hu))]

theorem mutateFirstById_found (pre post : List TodoItem) (t : TodoItem)
    (todoId : String) (f : TodoItem → TodoItem)
    (hpre : ∀ u ∈ pre, u.id ≠ todoId) (ht : t.id = todoId) :
    mutateFirstById (pre ++ t :: post) todoId f = (pre ++ f t :: post, true) := by
  induction pre with
  | nil => simp [mutateFirstById, ht]
  | cons x xs ih =>
    have hx : (x.id == todoId) = false :=
      beq_eq_false_iff_ne.mpr (hpre x (List.mem_cons_self x xs))
    simp only [List.cons_append, mutateFirstById, hx]
    simp [ih (fun u hu => hpre u (List.mem_cons_of_mem x hu))]

theorem mutateFirstById_map_id (todos : List TodoItem) (todoId : String)
    (f : TodoItem → TodoItem) (hf : ∀ u, (f u).id = u.id) :
    ((mutateFirstById todos todoId f).1).map TodoItem.id = todos.map TodoItem.id := by
  induction todos with
  | nil => rfl
  | cons t ts ih =>
    unfold mutateFirstById
    by_cases h : (t.id == todoId) = true <;> simp [h, hf, ih]

theorem trimHistory_eq_drop (l : List String) :
    trimHistory l = l.drop (l.length - maxConversationHistory) := by
  induction l with
  | nil => rfl
  | cons x xs ih =>
    unfold trimHistory
    by_cases h : (x :: xs).length ≤ maxConversationHistory
    · rw [if_pos h]
      have h0 : (x :: xs).length - maxConversationHistory = 0 := by omega
      rw [h0]
      rfl
    · rw [if_neg h, ih]
      have hlen : (x :: xs).length - maxConversationHistory =
          (xs.length - maxConversationHistory) + 1 := by
        simp only [List.length_cons] at *
        omega
      rw [hlen, List.drop_succ_cons]

theorem executeSequenceSteps_append (st : AppState) (xs ys : List ParsedCommand) :
    executeSequenceSteps st (xs ++ ys) =
      ((executeSequenceSteps (executeSequenceSteps st xs).1 ys).1,
       (executeSequenceSteps st xs).2 ++
         (executeSequenceSteps (executeSequenceSteps st xs).1 ys).2) := by
  induction xs generalizing st with
  | nil => simp [executeSequenceSteps]
  | cons c cs ih =>
    simp [executeSequenceSteps, ih, List.append_assoc]

theorem find?_applyOps_stable (t : TodoItem) (p : TodoItem → Bool) :
    ∀ (ops : List ListOp) (todos : List TodoItem),
      todos.find? p = some t → (∀ op ∈ ops, op ≠ ListOp.del t.id) →
      (applyOps todos ops).find? p = some t := by
  intro ops
  induction ops with
  | nil => exact fun todos h _ => h
  | cons op ops ih =>
    intro todos h hop
    have h1 : (applyOp todos op).find? p = some t := by
      cases op with
      | add freshId now title options => exact find?_append_of_some h _
      | del j =>
        refine find?_delete_of_some h ?_
        intro he
        exact hop (ListOp.del j) (List.mem_cons_self _ _) (by rw [he])
    exact ih (applyOp todos op) h1 (fun o ho => hop o (List.mem_cons_of_mem op ho))

theorem findTodoByShortId_eq_some {todos : List TodoItem} {s : String} {t : TodoItem}
    (h : findTodoByShortId todos s = some t) :
    ¬(s = "" ∨ s.length < 8) ∧
    todos.find? (fun todo => strStartsWith todo.id (strToLower s)) = some t := by
  unfold findTodoByShortId at h
  by_cases hg : s = "" ∨ s.length < 8
  · rw [if_pos hg] at h
    exact absurd h (by simp)
  · rw [if_neg hg] at h
    exact ⟨hg, h⟩

theorem strIncludes_empty (s : String) : strIncludes s "" = true := by
  simp only [strIncludes, List.any_eq_true]
  exact ⟨0, List.mem_range.mpr (Nat.succ_pos _), by simp [List.isPrefixOf]⟩

theorem resolveSelect_confirm_irrel (todos : List TodoItem) (sid : Option String)
    (num : Option Int) (c1 c2 : Option String) :
    resolveSelect todos ⟨sid, num, c1⟩ = resolveSelect todos ⟨sid, num, c2⟩ := rfl

/-!
Claim theorems.
-/

/-- C6: the conversation context tracker never stores more than 10 entries:
one record operation (a user turn plus the matching assistant turn) appends
at the back and, when the new size exceeds 10, evicts the oldest entries
from the front until the size is exactly 10; recording is total. -/
theorem claim_C6_history_bounded (history : List String)
    (userMessage assistantText : String) :
    (recordChatTurn history userMessage assistantText).length =
      min (history.length + 2) maxConversationHistory ∧
    recordChatTurn history userMessage assistantText =
      (history ++ ["User: " ++ userMessage, "Assistant: " ++ assistantText]).drop
        (history.length + 2 - maxConversationHistory) := by
  unfold recordChatTurn
  rw [trimHistory_eq_drop]
  constructor
  · rw [List.length_drop]
    simp only [List.length_append, List.length_cons, List.length_nil]
    omega
  · congr 1
    simp only [List.length_append, List.length_cons, List.length_nil]

/-- C7: a command sequence is never executed without explicit affirmative
confirmation: whenever the trimmed, lowercased answer is neither `y` nor
`yes`, the application state is unchanged — no command of the sequence runs. -/
theorem claim_C7_confirmation_gate (st : AppState) (parsed : ParsedSequence)
    (answer : String)
    (h1 : strToLower (strTrim answer) ≠ "y")
    (h2 : strToLower (strTrim answer) ≠ "yes") :
    (handleCommandSequence st parsed answer).1 = st := by
  unfold handleCommandSequence
  cases parsed.commands with
  | none => rfl
  | some commands =>
    by_cases he : strToLower (strTrim answer) = ""
    · simp [he]
    · simp [he, h1, h2]

/-- C7 witness: answering `n` to a non-empty, well-formed sequence leaves
the sample state untouched. -/
theorem claim_C7_confirmation_gate_witness :
    (handleCommandSequence sampleState
      { commands := some [{ action := "add_todo", title := some "Buy milk" }] }
      " N ").1 = sampleState :=
  claim_C7_confirmation_gate sampleState
    { commands := some [{ action := "add_todo", title := some "Buy milk" }] }
    " N " (by decide) (by decide)

/-- C8 counterexample: the claim quantifies over every `Partial<TodoItem>`
payload, but `Object.assign(todo, updates, ...)` copies a present `id`
property onto the record, so an update payload that contains `id` changes
the id of the updated todo. -/
theorem claim_C8_counterexample :
    ((updateTodo [sampleTodoA] sampleTodoA.id { id := some "zzzzzzzz-0000" }
        "t1").1).map TodoItem.id = ["zzzzzzzz-0000"] ∧
    ((updateTodo [sampleTodoA] sampleTodoA.id { id := some "zzzzzzzz-0000" }
        "t1").1).map TodoItem.id ≠ [sampleTodoA.id] := by
  constructor
  · rfl
  · decide

/-- C8 (amended): for every update payload that does not itself carry an
`id` property, `updateTodo` preserves the id of every todo in the list — in
particular the id of the updated todo is unchanged. -/
theorem claim_C8_id_immutable (todos : List TodoItem) (todoId : String)
    (updates : TodoUpdate) (now : String) (h : updates.id = none) :
    ((updateTodo todos todoId updates now).1).map TodoItem.id =
      todos.map TodoItem.id := by
  unfold updateTodo
  exact mutateFirstById_map_id todos todoId _
    (fun u => by simp [objectAssign, h])

/-- C8 witness: a payload that only retitles the todo keeps its id. -/
theorem claim_C8_id_immutable_witness :
    ((updateTodo [sampleTodoA, sampleTodoC] sampleTodoA.id
        { title := some "Buy oat milk" } "t1").1).map TodoItem.id =
      [sampleTodoA, sampleTodoC].map TodoItem.id :=
  claim_C8_id_immutable [sampleTodoA, sampleTodoC] sampleTodoA.id
    { title := some "Buy oat milk" } "t1" rfl

/-- C9: `completeTodo` on a list containing a todo with the given id (the
first such occurrence being `t`) sets exactly that todo's `completed` flag,
refreshes its `updatedAt`, leaves every other field and every other todo
unchanged, and returns `true`; when no todo has the id, it returns `false`
and the list is unchanged. -/
theorem claim_C9_completeTodo_frame (todos pre post : List TodoItem)
    (t : TodoItem) (todoId now : String) :
    ((∀ u ∈ todos, u.id ≠ todoId) → completeTodo todos todoId now = (todos, false)) ∧
    (todos = pre ++ t :: post → t.id = todoId → (∀ u ∈ pre, u.id ≠ todoId) →
      completeTodo todos todoId now =
        (pre ++ { t with completed := true, updatedAt := now } :: post, true)) := by
  constructor
  · intro h
    exact mutateFirstById_not_found todos todoId _ h
  · intro hsplit ht hpre
    rw [hsplit]
    exact mutateFirstById_found pre post t todoId _ hpre ht

/-- C9 witness: completing `sampleTodoA` in a two-element list flips only
its flag; completing a missing id is a no-op returning `false`. -/
theorem claim_C9_completeTodo_frame_witness :
    completeTodo [sampleTodoA, sampleTodoC] "missing-id" "t1" =
      ([sampleTodoA, sampleTodoC], false) ∧
    completeTodo [sampleTodoA, sampleTodoC] sampleTodoC.id "t1" =
      ([sampleTodoA, { sampleTodoC with completed := true, updatedAt := "t1" }], true) :=
  ⟨(claim_C9_completeTodo_frame [sampleTodoA, sampleTodoC] [] [] sampleTodoA
      "missing-id" "t1").1 (by decide),
   (claim_C9_completeTodo_frame [sampleTodoA, sampleTodoC] [sampleTodoA] []
      sampleTodoC sampleTodoC.id "t1").2 rfl rfl (by decide)⟩

/-- C1 counterexample: `sampleTodoA` and `sampleTodoB` both have ids
starting with the 8-character prefix `aaaaaaaa`, yet resolution by that
shortId succeeds and returns the first of the two — there is no
ambiguous-short-id failure. -/
theorem claim_C1_counterexample :
    strStartsWith sampleTodoA.id (strToLower "aaaaaaaa") = true ∧
    strStartsWith sampleTodoB.id (strToLower "aaaaaaaa") = true ∧
    resolveTodoReference [sampleTodoA, sampleTodoB] { shortId := some "aaaaaaaa" } =
      { todo := some sampleTodoA, error := none } := by
  refine ⟨by decide, by decide, by decide⟩

/-- C1 (amended): when several todos match a non-empty shortId of length at
least 8, resolution does not fail: it returns the first matching todo in
list order (here stated for any decomposition whose earlier elements do not
match), with no error. -/
theorem claim_C1_first_match (todos pre post : List TodoItem) (s : String)
    (t : TodoItem) (hs : s ≠ "") (hlen : ¬ s.length < 8)
    (hsplit : todos = pre ++ t :: post)
    (hpre : ∀ u ∈ pre, strStartsWith u.id (strToLower s) = false)
    (ht : strStartsWith t.id (strToLower s) = true) :
    resolveTodoReference todos { shortId := some s } =
      { todo := some t, error := none } := by
  have hfind : findTodoByShortId todos s = some t := by
    unfold findTodoByShortId
    rw [if_neg (by tauto), hsplit, List.find?_append]
    have hnone : pre.find? (fun todo => strStartsWith todo.id (strToLower s)) = none :=
      List.find?_eq_none.mpr (fun x hx => by simp [hpre x hx])
    rw [hnone, Option.none_or]
    exact List.find?_cons_of_pos _ ht
  simp [resolveTodoReference, resolveSelect, hs, hfind, resolveConfirm]

/-- C1 witness for the amended statement: in the two-element ambiguous list
the first match is returned. -/
theorem claim_C1_first_match_witness :
    resolveTodoReference [sampleTodoA, sampleTodoB] { shortId := some "aaaaaaaa" } =
      { todo := some sampleTodoA, error := none } :=
  claim_C1_first_match [sampleTodoA, sampleTodoB] [] [sampleTodoB] "aaaaaaaa"
    sampleTodoA (by decide) (by decide) rfl (by decide) (by decide)

/-- C3: identity stability.  If resolving the 8-character shortId of `t`
returns `t`, then after any sequence of add and delete operations that
never deletes the id of `t`, the very same record `t` (with its unchanged
id) is still in the list and resolving the same shortId reference still
returns it. -/
theorem claim_C3_identity_stability (todos : List TodoItem) (ops : List ListOp)
    (t : TodoItem)
    (hres : resolveTodoReference todos { shortId := some (shortIdOf t) } =
      { todo := some t, error := none })
    (hnodel : ∀ op ∈ ops, op ≠ ListOp.del t.id) :
    t ∈ applyOps todos ops ∧
    resolveTodoReference (applyOps todos ops) { shortId := some (shortIdOf t) } =
      { todo := some t, error := none } := by
  by_cases hse : shortIdOf t = ""
  · rw [hse] at hres
    simp [resolveTodoReference, resolveSelect, resolveFallback] at hres
  · cases hfind : findTodoByShortId todos (shortIdOf t) with
    | none =>
      rw [show resolveTodoReference todos { shortId := some (shortIdOf t) } =
          { todo := none, error := some ("No todo found with shortId: " ++ shortIdOf t) }
        from by simp [resolveTodoReference, resolveSelect, hse, hfind]] at hres
      exact absurd hres (by simp)
    | some u =>
      have hut : u = t := by
        rw [show resolveTodoReference todos { shortId := some (shortIdOf t) } =
            { todo := some u, error := none }
          from by simp [resolveTodoReference, resolveSelect, hse, hfind, resolveConfirm]] at hres
        have := congrArg ResolveResult.todo hres
        simpa using this
      subst hut
      obtain ⟨hguard, hfind2⟩ := findTodoByShortId_eq_some hfind
      have hstable := find?_applyOps_stable u _ ops todos hfind2 hnodel
      have hfind3 : findTodoByShortId (applyOps todos ops) (shortIdOf u) = some u := by
        unfold findTodoByShortId
        rw [if_neg hguard]
        exact hstable
      exact ⟨List.mem_of_find?_eq_some hstable,
        by simp [resolveTodoReference, resolveSelect, hse, hfind3, resolveConfirm]⟩

/-- C3 witness: after an append and an unrelated delete, `sampleTodoA` is
still resolved by its original shortId. -/
theorem claim_C3_identity_stability_witness :
    resolveTodoReference
      (applyOps [sampleTodoA, sampleTodoC]
        [ListOp.add "cccccccc-5555" "t2" "New task" {}, ListOp.del sampleTodoC.id])
      { shortId := some (shortIdOf sampleTodoA) } =
      { todo := some sampleTodoA, error := none } :=
  (claim_C3_identity_stability [sampleTodoA, sampleTodoC]
    [ListOp.add "cccccccc-5555" "t2" "New task" {}, ListOp.del sampleTodoC.id]
    sampleTodoA (by decide) (by decide)).2

/-- C4: the content-mismatch guard.  If resolution without the confirm
check selects the todo `t` (by shortId or by positional index), and the
title of `t` does not contain the expected substring case-insensitively,
then resolution with `confirmTitle` fails with the title-mismatch error and
returns no todo. -/
theorem claim_C4_content_mismatch (todos : List TodoItem) (sid : Option String)
    (num : Option Int) (t : TodoItem) (c : String)
    (hmiss : strIncludes (strToLower t.title) (strToLower c) = false)
    (hsel : resolveTodoReference todos ⟨sid, num, none⟩ =
      { todo := some t, error := none }) :
    resolveTodoReference todos ⟨sid, num, some c⟩ =
      { todo := none
        error := some ("Title mismatch: expected \"" ++ c ++
          "\", found \"" ++ t.title ++ "\"") } := by
  have hc : c ≠ "" := by
    intro he
    subst he
    rw [show strToLower "" = "" from rfl, strIncludes_empty] at hmiss
    exact Bool.true_eq_false.mp hmiss
  have hsame : resolveSelect todos ⟨sid, num, some c⟩ =
      resolveSelect todos ⟨sid, num, none⟩ :=
    resolveSelect_confirm_irrel todos sid num (some c) none
  unfold resolveTodoReference at hsel ⊢
  cases hsel2 : resolveSelect todos (⟨sid, num, none⟩ : TodoReference) with
  | inl e =>
    rw [hsel2] at hsel
    exact absurd (congrArg ResolveResult.todo hsel) (by simp)
  | inr u =>
    rw [hsel2] at hsel
    have hut : u = t := by
      have := congrArg ResolveResult.todo hsel
      simpa [resolveConfirm] using this
    subst hut
    rw [hsame, hsel2]
    simp [resolveConfirm, hc, hmiss]

/-- C4 witness: a matching shortId with a non-matching expected title
substring is rejected with the mismatch error. -/
theorem claim_C4_content_mismatch_witness :
    resolveTodoReference [sampleTodoA] ⟨some "aaaaaaaa", none, some "zzz"⟩ =
      { todo := none
        error := some "Title mismatch: expected \"zzz\", found \"Buy milk\"" } :=
  claim_C4_content_mismatch [sampleTodoA] (some "aaaaaaaa") none sampleTodoA "zzz"
    (by decide) (by decide)

/-- C5 counterexample: the claim promises that with a positional index
inside `[1, length]` resolution returns the todo at that position, but a
reference that also carries a non-matching `confirmTitle` fails instead,
so resolution does not return the todo. -/
theorem claim_C5_counterexample :
    resolveTodoReference [sampleTodoA] { todoNumber := some 1, confirmTitle := some "zzz" } =
      { todo := none
        error := some "Title mismatch: expected \"zzz\", found \"Buy milk\"" } ∧
    resolveTodoReference [sampleTodoA] { todoNumber := some 1, confirmTitle := some "zzz" } ≠
      { todo := some sampleTodoA, error := none } := by
  refine ⟨by decide, by decide⟩

/-- C5 (amended): the decision order of the resolver.  A non-empty shortId
is always tried first (the positional index is then ignored); when the
shortId is absent or empty and a positional index is present, resolution
fails with the invalid-todo-number error exactly when the index is outside
`[1, length]`, and otherwise selects the todo at `list[index-1]` (returned
as such when no confirm check is requested); when neither identifier is
present, resolution fails with the missing-identifier error. -/
theorem claim_C5_decision_order (todos : List TodoItem) (ref : TodoReference)
    (s : String) (n : Int) :
    (ref.shortId = some s → s ≠ "" →
      resolveTodoReference todos ref =
        resolveTodoReference todos
          { shortId := ref.shortId, todoNumber := none, confirmTitle := ref.confirmTitle }) ∧
    (optStrTruthy ref.shortId = false → ref.todoNumber = some n →
      (n < 1 ∨ (todos.length : Int) < n) →
      resolveTodoReference todos ref =
        { todo := none, error := some ("Invalid todo number: " ++ toString n) }) ∧
    (optStrTruthy ref.shortId = false → ref.todoNumber = some n →
      ref.confirmTitle = none → 1 ≤ n → n ≤ (todos.length : Int) →
      ∃ t, todos.get? (n - 1).toNat = some t ∧
        resolveTodoReference todos ref = { todo := some t, error := none }) ∧
    (optStrTruthy ref.shortId = false → ref.todoNumber = none →
      resolveTodoReference todos ref =
        { todo := none
          error := some "No todo identifier provided (shortId or todoNumber required)" }) := by
  obtain ⟨sid, num, conf⟩ := ref
  refine ⟨?_, ?_, ?_, ?_⟩
  · intro hsid hs
    simp only at hsid
    subst hsid
    unfold resolveTodoReference resolveSelect
    simp only [if_neg hs]
    rfl
  · intro hfalse hnum hout
    simp only at hfalse hnum
    subst hnum
    have hfb : resolveFallback todos (⟨sid, some n, conf⟩ : TodoReference) =
        Sum.inl ("Invalid todo number: " ++ toString n) := by
      unfold resolveFallback
      simp only
      rw [if_pos (by omega)]
    cases sid with
    | none => simp [resolveTodoReference, resolveSelect, hfb]
    | some s0 =>
      have hs0 : s0 = "" := by
        by_contra hne
        simp [optStrTruthy, hne] at hfalse
      subst hs0
      simp [resolveTodoReference, resolveSelect, hfb]
  · intro hfalse hnum hconf h1 h2
    simp only at hfalse hnum hconf
    subst hnum
    subst hconf
    have hlt : (n - 1).toNat < todos.length := by omega
    refine ⟨todos.get ⟨(n - 1).toNat, hlt⟩, List.get?_eq_get hlt, ?_⟩
    have hfb : resolveFallback todos (⟨sid, some n, none⟩ : TodoReference) =
        Sum.inr (todos.get ⟨(n - 1).toNat, hlt⟩) := by
      unfold resolveFallback
      simp only
      rw [if_neg (by omega)]
      congr 1
      rw [List.getD_eq_get?, List.get?_eq_get hlt]
      rfl
    cases sid with
    | none => simp [resolveTodoReference, resolveSelect, hfb, resolveConfirm]
    | some s0 =>
      have hs0 : s0 = "" := by
        by_contra hne
        simp [optStrTruthy, hne] at hfalse
      subst hs0
      simp [resolveTodoReference, resolveSelect, hfb, resolveConfirm]
  · intro hfalse hnum
    simp only at hfalse hnum
    subst hnum
    cases sid with
    | none => simp [resolveTodoReference, resolveSelect, resolveFallback]
    | some s0 =>
      have hs0 : s0 = "" := by
        by_contra hne
        simp [optStrTruthy, hne] at hfalse
      subst hs0
      simp [resolveTodoReference, resolveSelect, resolveFallback]

/-- C5 witness: an out-of-range index and a missing identifier fail with the
matching errors on a one-element list. -/
theorem claim_C5_decision_order_witness :
    resolveTodoReference [sampleTodoA] { todoNumber := some 99 } =
      { todo := none, error := some "Invalid todo number: 99" } ∧
    resolveTodoReference [sampleTodoA] {} =
      { todo := none
        error := some "No todo identifier provided (shortId or todoNumber required)" } :=
  ⟨(claim_C5_decision_order [sampleTodoA] { todoNumber := some 99 } "" 99).2.1
      rfl rfl (by decide),
   (claim_C5_decision_order [sampleTodoA] {} "" 0).2.2.2 rfl rfl⟩

/-- C10 counterexample: the empty string is shorter than 8 characters and is
a prefix of exactly one id in the list, but resolution with it does not fail
with the not-found error: the empty shortId is treated as absent and the
missing-identifier error is produced instead. -/
theorem claim_C10_counterexample :
    ("" : String).length < 8 ∧
    strStartsWith sampleTodoA.id (strToLower "") = true ∧
    resolveTodoReference [sampleTodoA] { shortId := some "" } =
      { todo := none
        error := some "No todo identifier provided (shortId or todoNumber required)" } ∧
    ("No todo identifier provided (shortId or todoNumber required)" : String) ≠
      "No todo found with shortId: " := by
  refine ⟨by decide, by decide, by decide, by decide⟩

/-- C10 (amended): a shortId of fewer than 8 characters never resolves to a
todo; when it is non-empty the failure is the not-found error, and when it
is empty it is treated as absent (missing-identifier error, since no
positional index accompanies it). -/
theorem claim_C10_short_prefix_never_resolves (todos : List TodoItem) (s : String)
    (conf : Option String) (h : s.length < 8) :
    (resolveTodoReference todos
      { shortId := some s, todoNumber := none, confirmTitle := conf }).todo = none ∧
    (s ≠ "" → resolveTodoReference todos
      { shortId := some s, todoNumber := none, confirmTitle := conf } =
      { todo := none, error := some ("No todo found with shortId: " ++ s) }) := by
  have hfind : findTodoByShortId todos s = none := by
    unfold findTodoByShortId
    rw [if_pos (Or.inr h)]
  constructor
  · by_cases hs : s = ""
    · simp [resolveTodoReference, resolveSelect, hs, resolveFallback]
    · simp [resolveTodoReference, resolveSelect, hs, hfind]
  · intro hs
    simp [resolveTodoReference, resolveSelect, hs, hfind]

/-- C10 witness: the 4-character prefix `aaaa` matches exactly one id but
still fails with the not-found error. -/
theorem claim_C10_short_prefix_never_resolves_witness :
    resolveTodoReference [sampleTodoA]
      { shortId := some "aaaa", todoNumber := none, confirmTitle := none } =
      { todo := none, error := some ("No todo found with shortId: " ++ "aaaa") } :=
  (claim_C10_short_prefix_never_resolves [sampleTodoA] "aaaa" none (by decide)).2 (by decide)

/-- C2 counterexample: in a confirmed 3-step batch whose second step fails
validation (an `add_todo` with no title), execution does not stop: the
titles of the final list show that step 1 and step 3 were both applied, and
the message log shows the run reaching step 3 and completing. -/
theorem claim_C2_counterexample :
    ((handleCommandSequence sampleState sampleSeqC2 "y").1.lists.map
      (fun l => l.todos.map (fun t => t.title))) = [["Buy milk", "Walk dog"]] ∧
    (handleCommandSequence sampleState sampleSeqC2 "y").2 =
      ["Executing command sequence...",
       "Added \"Buy milk\" to Personal list",
       "Missing todo title in your request.",
       "Added \"Walk dog\" to Personal list",
       "Command sequence completed successfully!"] := by
  refine ⟨by decide, by decide⟩

/-- C2 (amended): a step of a confirmed sequence that fails the add-todo
title validation leaves the state unchanged at that step and is reported
with the missing-title message, while earlier effects remain applied and
every later step is still attempted — execution continues instead of
stopping. -/
theorem claim_C2_rejected_step_continues (st : AppState)
    (pre post : List ParsedCommand) (c : ParsedCommand)
    (hact : c.action = "add_todo") (hti : optStrTruthy c.title = false)
    (hcur : (getCurrentList (executeSequenceSteps st pre).1).isSome = true) :
    (executeSequenceSteps st (pre ++ c :: post)).1 =
      (executeSequenceSteps st (pre ++ post)).1 ∧
    (executeSequenceSteps st (pre ++ c :: post)).2 =
      (executeSequenceSteps st pre).2 ++
        "Missing todo title in your request." ::
          (executeSequenceSteps (executeSequenceSteps st pre).1 post).2 := by
  have hstep : handleParsedCommand (executeSequenceSteps st pre).1 c =
      ((executeSequenceSteps st pre).1, ["Missing todo title in your request."]) := by
    obtain ⟨cur, hc⟩ := Option.isSome_iff_exists.mp hcur
    unfold handleParsedCommand
    rw [hact]
    unfold handleAddTodo
    rw [hc, hti]
    simp
  constructor
  · rw [executeSequenceSteps_append, executeSequenceSteps_append]
    simp [executeSequenceSteps, hstep]
  · rw [executeSequenceSteps_append]
    simp [executeSequenceSteps, hstep]

/-- C2 witness for the amended statement, at the concrete 3-step batch. -/
theorem claim_C2_rejected_step_continues_witness :
    (executeSequenceSteps sampleState
        ([sampleCmdAddMilk] ++ sampleCmdNoTitle :: [sampleCmdAddDog])).1 =
      (executeSequenceSteps sampleState ([sampleCmdAddMilk] ++ [sampleCmdAddDog])).1 ∧
    (executeSequenceSteps sampleState
        ([sampleCmdAddMilk] ++ sampleCmdNoTitle :: [sampleCmdAddDog])).2 =
      (executeSequenceSteps sampleState [sampleCmdAddMilk]).2 ++
        "Missing todo title in your request." ::
          (executeSequenceSteps (executeSequenceSteps sampleState [sampleCmdAddMilk]).1
            [sampleCmdAddDog]).2 :=
  claim_C2_rejected_step_continues sampleState [sampleCmdAddMilk] [sampleCmdAddDog]
    sampleCmdNoTitle rfl rfl (by decide)

end TodoGpt
